import Mathlib

/-!
Verification of the go-tableland core against its specification.

The development shallowly embeds the two core components:

* the transaction processor (`pkg/txn/impl/processor.go`):
  `NewTxnProcessor`, `OpenBatch`, `Close`, `InsertTable`,
  `ExecWriteQueries`, `executeWriteStmt`, `executeGrantStmt`;
* the SQL validator (`pkg/parsing/impl`): `ValidateRunSQL`,
  `ValidateCreateTable` and their helper checks over the parsed AST.

Go machine integers are embedded as `Nat`/`Int` (with explicit `% 2 ^ w`
where overflow matters, e.g. in the SHA-256 model), fallible Go code
returns `Option`/`Except`, and the store / parser collaborators (which are
external to the repository) are represented by explicit outcome parameters
or, where the specification fixes their contract, by functions modelled
from the specification (each such function says so in its doc comment).
-/

namespace Tableland

/-! ## Go error values

Go errors are values with a message; `fmt.Errorf` with `%s` produces a new
flat error whose message embeds the old one (the dynamic type of the inner
error is erased), while `%w` produces a wrapping error from which the inner
error can be recovered (this is what `errors.As` unwraps through).
`txn.ErrRowCountExceeded` is the one structured error of the write path. -/

inductive GoErr : Type where
  /-- The `txn.ErrRowCountExceeded` with its `BeforeRowCount`/`AfterRowCount`
  payload. The type itself lives in `pkg/txn` (not under `src/`); its payload
  fields are taken from the uses in `processor.go`. -/
  | rowCountExceeded (beforeRowCount afterRowCount : Nat)
  /-- a plain error carrying only a message (`errors.New`, `fmt.Errorf`
  with `%s`-style verbs). -/
  | str (msg : String)
  /-- The `fmt.Errorf("...: %w", inner)`: a message plus a recoverable inner
  error. -/
  | wrap (msg : String) (inner : GoErr)
  deriving DecidableEq, Repr

/-- The `Error()` message of a `GoErr`. The message for `rowCountExceeded`
is modelled from the spec (`RowCountExceeded{before, after}`); its exact
text is defined in `pkg/txn`, outside `src/`, and no claim depends on it. -/
def GoErr.message : GoErr → String
  | .rowCountExceeded b a =>
      "db row count exceeded (before:" ++ toString b ++ " after:" ++ toString a ++ ")"
  | .str m => m
  | .wrap m inner => m ++ ": " ++ inner.message

/-- The `errors.As(err, **txn.ErrRowCountExceeded)`: recover the row-count
error through any chain of `%w` wraps, returning its payload. -/
def GoErr.asRowCountExceeded : GoErr → Option (Nat × Nat)
  | .rowCountExceeded b a => some (b, a)
  | .str _ => none
  | .wrap _ inner => inner.asRowCountExceeded

/-- Exact dynamic-type match, as in the Go type assertion
`err.(*txn.ErrRowCountExceeded)`: true only for the bare error, with no
unwrapping. -/
def GoErr.isBareRowCountExceeded : GoErr → Bool
  | .rowCountExceeded _ _ => true
  | _ => false

/-! ## The transaction processor (`pkg/txn/impl/processor.go`)

The store (postgres) is an external collaborator: each `tx.Exec` /
`QueryRow` call either succeeds or fails, and on success an executed
mutation reports a command tag `(is_insert, rows_affected)`.  Those
outcomes are explicit parameters of the embedded functions.  The only
piece of store state the claims observe is the row count of the (single)
user table a batch touches, so a batch state is that count; `BeginFunc`
(a savepoint) restores it when the inner function fails. -/

/-- The command kind reported by the store for an executed mutation
(`cmdTag.Insert()` and friends). -/
inductive WriteOp : Type where
  | ins
  | upd
  | del
  deriving DecidableEq, Repr

/-- Effect of executing one mutation on the touched table row count:
an insert adds its affected rows, a delete removes them, an update
leaves the count unchanged. -/
def applyWriteOp : WriteOp → Nat → Nat → Nat
  | .ins, affected, c => c + affected
  | .upd, _, c => c
  | .del, affected, c => c - affected

/-- One element of the `mqueries` slice of `ExecWriteQueries`, together
with the outcomes of the external calls its execution performs
(`parsing.SugaredGrantStmt` / `parsing.SugaredWriteStmt`). -/
inductive MutStmt : Type where
  /-- a grant/revoke statement; `grantResult` is the outcome of
  `executeGrantStmt` (owner check plus `system_acl` updates), which does
  not touch the user table. -/
  | grant (namePfx : String) (grantResult : Option GoErr)
  /-- a write statement: its name-prefix hint, the command tag the store
  reports (`op`, `affected`), and the outcomes of the ACL check
  (`CheckPrivileges`), of `GetDesugaredQuery` and of `tx.Exec`. -/
  | write (namePfx : String) (op : WriteOp) (affected : Nat)
      (aclErr : Option GoErr) (desugarErr : Option GoErr) (execErr : Option GoErr)
  deriving DecidableEq, Repr

/-- The `GetNamePrefix` of a mutating statement. -/
def MutStmt.namePfx : MutStmt → String
  | .grant p _ => p
  | .write p _ _ _ _ _ => p

/-- The `executeWriteStmt` (processor.go:301-330): check privileges, desugar,
execute, and — when `maxTableRowCount > 0` and the command was an INSERT —
fail with `ErrRowCountExceeded` if `beforeRowCount + rows_affected`
exceeds the cap.  State passing: `c` is the current row count of the
touched table and the first component of the result is the count after
the `tx.Exec` (rolled back by the caller on error). -/
def executeWriteStmt (maxTableRowCount beforeRowCount : Nat)
    (aclErr desugarErr execErr : Option GoErr) (op : WriteOp) (affected : Nat)
    (c : Nat) : Nat × Option GoErr :=
  match aclErr with
  | some e => (c, some (.str ("error checking acl: " ++ e.message)))
  | none =>
  match desugarErr with
  | some e => (c, some (.str ("get desugared query: " ++ e.message)))
  | none =>
  match execErr with
  | some e => (c, some (.str ("exec query: " ++ e.message)))
  | none =>
    let cNext := applyWriteOp op affected c
    if 0 < maxTableRowCount ∧ op = .ins then
      let afterRowCount := beforeRowCount + affected
      if maxTableRowCount < afterRowCount then
        (cNext, some (.rowCountExceeded beforeRowCount afterRowCount))
      else (cNext, none)
    else (cNext, none)

/-- The statement loop of `ExecWriteQueries` (processor.go:157-182),
threading the table row count.  `beforeRowCount` is the count looked up
once before the loop; a bare `ErrRowCountExceeded` from `executeWriteStmt`
is returned as-is (the `err.(*txn.ErrRowCountExceeded)` type assertion),
every other statement error is `%s`-wrapped. -/
def ewqLoop (maxTableRowCount beforeRowCount : Nat) (dbName : String) :
    Nat → List MutStmt → Except GoErr Nat
  | c, [] => .ok c
  | c, mq :: rest =>
    if mq.namePfx ≠ "" ∧ dbName ≠ mq.namePfx then
      .error (.str ("table name prefix does not match (exp " ++ dbName ++
        ", got " ++ mq.namePfx ++ ")"))
    else
      match mq with
      | .grant _ grantResult =>
        match grantResult with
        | some e => .error (.str ("executing grant stmt: " ++ e.message))
        | none => ewqLoop maxTableRowCount beforeRowCount dbName c rest
      | .write _ op affected aclErr desugarErr execErr =>
        match executeWriteStmt maxTableRowCount beforeRowCount
            aclErr desugarErr execErr op affected c with
        | (_, some (.rowCountExceeded b a)) => .error (.rowCountExceeded b a)
        | (_, some e) => .error (.str ("executing write stmt: " ++ e.message))
        | (cNext, none) => ewqLoop maxTableRowCount beforeRowCount dbName cNext rest

/-- The `ExecWriteQueries` (processor.go:142-191).  `count0` is the row count
of the touched table when the batch savepoint opens; `lookupErr` is the
outcome of `GetTableNameAndRowCountByTableID`.  The whole body runs under
`BeginFunc`: on any inner error the savepoint is rolled back (the count
reverts to `count0`) and the error is `%w`-wrapped as
`running nested txn`. -/
def execWriteQueries (maxTableRowCount : Nat) (dbName : String)
    (lookupErr : Option GoErr) (count0 : Nat) (mqueries : List MutStmt) :
    Nat × Option GoErr :=
  if mqueries.isEmpty then
    -- `len(mqueries) == 0` is a no-op with a warning.
    (count0, none)
  else
    match lookupErr with
    | some e =>
      (count0, some (.wrap "running nested txn"
        (.str ("table name lookup for table id: " ++ e.message))))
    | none =>
      match ewqLoop maxTableRowCount count0 dbName count0 mqueries with
      | .ok c => (c, none)
      | .error e => (count0, some (.wrap "running nested txn" e))

/-- How many mutating statements of a batch are INSERTs (by command tag). -/
def insertCount : List MutStmt → Nat
  | [] => 0
  | .write _ .ins _ _ _ _ :: rest => insertCount rest + 1
  | _ :: rest => insertCount rest

/-! ## Processor construction and lifecycle

`TblTxnProcessor` owns a one-capacity channel `chBatch` holding the single
batch token.  `OpenBatch` receives from it (blocking when it is empty),
`batch.Close` sends the token back, and processor `Close` receives the
token (or gives up when the context is cancelled) and never returns it.
The observable channel state is whether the token is in it. -/

/-- The processor state the lifecycle claims observe: `maxTableRowCount`
(validated at construction) and whether the batch token currently sits in
`chBatch`. -/
structure TblTxnProcessor : Type where
  maxTableRowCount : Int
  tokenInChannel : Bool
  deriving DecidableEq, Repr

/-- The `NewTxnProcessor` (processor.go:31-51): connect to postgres (an
external call whose outcome is `connectOk`), reject a negative
`maxTableRowCount`, then allocate the processor and put the token into
the one-slot channel. -/
def newTxnProcessor (connectOk : Bool) (maxTableRowCount : Int) :
    Except GoErr TblTxnProcessor :=
  if ¬connectOk then .error (.str "connecting to postgres: connection error")
  else if maxTableRowCount < 0 then
    .error (.str "maximum table row count is negative")
  else .ok { maxTableRowCount := maxTableRowCount, tokenInChannel := true }

/-- Result of a call to `OpenBatch`.  A receive on an empty channel with
no pending sender never completes, so the call does not return at all:
that is `blocked`.  When the token is available, `BeginTx` (external)
either fails — the token is pushed back and an error returned — or
succeeds and a batch holding the token is returned. -/
inductive OpenBatchResult : Type where
  | blocked
  | failed (e : GoErr)
  | opened
  deriving DecidableEq, Repr

/-- Whether `OpenBatch` returned an error. -/
def OpenBatchResult.isError : OpenBatchResult → Bool
  | .failed _ => true
  | _ => false

/-- Whether `OpenBatch` returned a batch. -/
def OpenBatchResult.isBatch : OpenBatchResult → Bool
  | .opened => true
  | _ => false

/-- The `OpenBatch` (processor.go:56-70): `<-tp.chBatch`, then `BeginTx` with
serializable/read-write options; on `BeginTx` failure the token is sent
back and the error returned. -/
def openBatch (tp : TblTxnProcessor) (beginTxOk : Bool) :
    OpenBatchResult × TblTxnProcessor :=
  if tp.tokenInChannel then
    if beginTxOk then (.opened, { tp with tokenInChannel := false })
    else (.failed (.str "opening postgres transaction: begin error"),
      { tp with tokenInChannel := true })
  else (.blocked, tp)

/-- Result of processor `Close`: the context fired first, or the token was
received (graceful close).  When neither can ever happen the call blocks,
but the claims only look at calls that returned. -/
inductive CloseResult : Type where
  | ctxDone (e : GoErr)
  | closedOk
  deriving DecidableEq, Repr

/-- Processor `Close` (processor.go:74-82): `select` between `ctx.Done()`
and `<-tp.chBatch`.  When the token is in the channel the receive can
fire and the close succeeds, consuming the token for good; otherwise only
the context case can fire.  (`ctxDone` reports whether the context was
cancelled.) -/
def closeProcessor (tp : TblTxnProcessor) (ctxIsDone : Bool) :
    Option (CloseResult × TblTxnProcessor) :=
  if tp.tokenInChannel then
    some (.closedOk, { tp with tokenInChannel := false })
  else if ctxIsDone then
    some (.ctxDone (.str "closing ctx done"), tp)
  else
    none

/-! ## SHA-256 (`crypto/sha256`, FIPS 180-4)

The validator hashes the stringified column definition of a CREATE with
Go's `crypto/sha256` and hex-encodes the digest.  The hash function is
embedded executably over byte lists, with 32-bit words as `Nat` reduced
`% 2 ^ 32`. -/

/-- Word modulus `2 ^ 32`. -/
def m32 : Nat := 4294967296

/-- Rotate a 32-bit word right by `k`. -/
def rotr32 (k n : Nat) : Nat := ((n >>> k) ||| (n <<< (32 - k))) % m32

/-- Bitwise complement of a 32-bit word. -/
def not32 (n : Nat) : Nat := n ^^^ 0xffffffff

/-- FIPS 180-4 `Ch(x,y,z)`. -/
def sha256Ch (x y z : Nat) : Nat := (x &&& y) ^^^ (not32 x &&& z)

/-- FIPS 180-4 `Maj(x,y,z)`. -/
def sha256Maj (x y z : Nat) : Nat := (x &&& y) ^^^ (x &&& z) ^^^ (y &&& z)

/-- FIPS 180-4 `Σ0`. -/
def sha256S0 (x : Nat) : Nat := rotr32 2 x ^^^ rotr32 13 x ^^^ rotr32 22 x

/-- FIPS 180-4 `Σ1`. -/
def sha256S1 (x : Nat) : Nat := rotr32 6 x ^^^ rotr32 11 x ^^^ rotr32 25 x

/-- FIPS 180-4 `σ0`. -/
def sha256s0 (x : Nat) : Nat := rotr32 7 x ^^^ rotr32 18 x ^^^ (x >>> 3)

/-- FIPS 180-4 `σ1`. -/
def sha256s1 (x : Nat) : Nat := rotr32 17 x ^^^ rotr32 19 x ^^^ (x >>> 10)

/-- The 64 SHA-256 round constants. -/
def sha256K : List Nat :=
  [1116352408, 1899447441, 3049323471, 3921009573, 961987163,
   1508970993, 2453635748, 2870763221, 3624381080, 310598401,
   607225278, 1426881987, 1925078388, 2162078206, 2614888103,
   3248222580, 3835390401, 4022224774, 264347078, 604807628,
   770255983, 1249150122, 1555081692, 1996064986, 2554220882,
   2821834349, 2952996808, 3210313671, 3336571891, 3584528711,
   113926993, 338241895, 666307205, 773529912, 1294757372, 1396182291,
   1695183700, 1986661051, 2177026350, 2456956037, 2730485921,
   2820302411, 3259730800, 3345764771, 3516065817, 3600352804,
   4094571909, 275423344, 430227734, 506948616, 659060556, 883997877,
   958139571, 1322822218, 1537002063, 1747873779, 1955562222,
   2024104815, 2227730452, 2361852424, 2428436474, 2756734187,
   3204031479, 3329325298]

/-- The SHA-256 initial hash value. -/
def sha256H0 : List Nat :=
  [1779033703, 3144134277, 1013904242, 2773480762,
   1359893119, 2600822924, 528734635, 1541459225]

/-- Word `i` of a schedule (0 when out of range). -/
def wAt (l : List Nat) (i : Nat) : Nat := l.getD i 0

/-- Append the next message-schedule word. -/
def sha256ExtendStep (l : List Nat) : List Nat :=
  let n := l.length
  l ++ [(sha256s1 (wAt l (n - 2)) + wAt l (n - 7) +
         sha256s0 (wAt l (n - 15)) + wAt l (n - 16)) % m32]

/-- Extend a 16-word block to the 64-word message schedule. -/
def sha256Schedule (block : List Nat) : List Nat :=
  (List.range 48).foldl (fun acc _ => sha256ExtendStep acc) block

/-- One compression round on the 8-word working state. -/
def sha256Round (s : List Nat) (wk : Nat × Nat) : List Nat :=
  match s with
  | [a, b, c, d, e, f, g, h] =>
    let t1 := (h + sha256S1 e + sha256Ch e f g + wk.2 + wk.1) % m32
    let t2 := (sha256S0 a + sha256Maj a b c) % m32
    [(t1 + t2) % m32, a, b, c, (d + t1) % m32, e, f, g]
  | _ => s

/-- Compress one 16-word block into the running hash value. -/
def sha256Compress (h : List Nat) (block : List Nat) : List Nat :=
  let ws := sha256Schedule block
  let v := (ws.zip sha256K).foldl sha256Round h
  (h.zip v).map (fun p => (p.1 + p.2) % m32)

/-- Big-endian bytes of `n`, `k` bytes wide. -/
def beBytes : Nat → Nat → List Nat
  | 0, _ => []
  | k + 1, n => beBytes k (n / 256) ++ [n % 256]

/-- SHA-256 padding: `0x80`, zeros to 56 mod 64, then the 64-bit
big-endian bit length. -/
def sha256Pad (msg : List Nat) : List Nat :=
  let l := msg.length
  let k := (64 - (l + 9) % 64) % 64
  msg ++ [0x80] ++ List.replicate k 0 ++ beBytes 8 (l * 8)

/-- Pack big-endian bytes into 32-bit words. -/
def bytesToWords : List Nat → List Nat
  | b0 :: b1 :: b2 :: b3 :: rest =>
      (((b0 * 256 + b1) * 256 + b2) * 256 + b3) :: bytesToWords rest
  | _ => []

/-- Split a word list into 16-word blocks. -/
def chunk16 (ws : List Nat) : List (List Nat) :=
  (List.range (ws.length / 16)).map (fun i => ((ws.drop (16 * i)).take 16))

/-- The SHA-256 digest of a byte list, as 32 bytes. -/
def sha256 (msg : List Nat) : List Nat :=
  let final := (chunk16 (bytesToWords (sha256Pad msg))).foldl sha256Compress sha256H0
  (final.map (beBytes 4)).flatten

/-- A lowercase hex digit. -/
def hexChar (n : Nat) : Char :=
  if n < 10 then Char.ofNat (48 + n) else Char.ofNat (87 + n)

/-- Two lowercase hex digits of a byte (`encoding/hex`). -/
def byteToHex (b : Nat) : String := String.mk [hexChar (b / 16), hexChar (b % 16)]

/-- Lowercase hex encoding of a byte list (`hex.EncodeToString`). -/
def hexEncode (bs : List Nat) : String := String.join (bs.map byteToHex)

/-- UTF-8 bytes of a character (Go strings are UTF-8; `[]byte(s)`). -/
def charUtf8 (c : Char) : List Nat :=
  let n := c.toNat
  if n < 0x80 then [n]
  else if n < 0x800 then [0xc0 ||| (n >>> 6), 0x80 ||| (n &&& 0x3f)]
  else if n < 0x10000 then
    [0xe0 ||| (n >>> 12), 0x80 ||| ((n >>> 6) &&& 0x3f), 0x80 ||| (n &&& 0x3f)]
  else
    [0xf0 ||| (n >>> 18), 0x80 ||| ((n >>> 12) &&& 0x3f),
     0x80 ||| ((n >>> 6) &&& 0x3f), 0x80 ||| (n &&& 0x3f)]

/-- UTF-8 bytes of a string. -/
def strBytes (s : String) : List Nat := (s.data.map charUtf8).flatten

/-- Hex-encoded SHA-256 of a string, as the validator computes it:
`sh.Write([]byte(s)); hex.EncodeToString(sh.Sum(nil))`. -/
def sha256Hex (s : String) : String := hexEncode (sha256 (strBytes s))

/-! ## The SQL validator (`pkg/parsing/impl`)

The external parser (`pg_query_go`) turns a SQL string into an AST of
`Node` values; the validator only inspects the node kinds below, so the
embedding carries exactly the fields the validator reads (plus the few
that the spec-modelled `Deparse` needs to re-emit SQL).  Go presents each
node as a oneof with nullable pointers; nullable child pointers become
`Option Node` and `Get...` accessors become pattern matches. -/

mutual
inductive Node : Type where
  /-- The `RangeVar`: a relation reference with its `Relname`. -/
  | rangeVar (relname : String)
  /-- The `ColumnRef`. -/
  | columnRef (fields : List String)
  /-- The `A_Const`: a literal constant (its SQL text). -/
  | aConst (val : String)
  /-- The `SQLValueFunction`: `CURRENT_TIMESTAMP`, `CURRENT_DATE`, ... -/
  | sqlValueFunction
  /-- The `FuncCall`: an ordinary function call. -/
  | funcCall (funcname : String) (args : List Node)
  /-- The `ResTarget`: a target-list entry (`Name` is set for UPDATE set
  targets, empty otherwise). -/
  | resTarget (name : String) (val : Option Node)
  /-- The `A_Expr`: a binary/unary operator expression. -/
  | aExpr (opName : String) (lexpr rexpr : Option Node)
  /-- The `BoolExpr`: an AND/OR/NOT combination. -/
  | boolExpr (boolop : String) (args : List Node)
  /-- The `SubLink`: a scalar subquery. -/
  | subLink
  /-- The `List`: a parenthesised value list. -/
  | listNode (items : List Node)
  /-- The `RangeSubselect`: a sub-SELECT in FROM. -/
  | rangeSubselect (subquery : Option Node)
  /-- The `JoinExpr` with its left and right arms. -/
  | joinExpr (larg rarg : Option Node)
  /-- The `SelectStmt`: target list, FROM, WHERE, `ValuesLists` (non-empty
  exactly for a `VALUES` list) and any locking clause entries. -/
  | selectStmt (targetList fromClause : List Node) (whereClause : Option Node)
      (valuesLists : List Node) (lockingClause : List Node)
  /-- The `InsertStmt`: relation name, embedded select, RETURNING list. -/
  | insertStmt (relname : String) (selStmt : Option Node) (returningList : List Node)
  /-- The `UpdateStmt`. -/
  | updateStmt (relname : String) (targetList fromClause : List Node)
      (whereClause : Option Node) (returningList : List Node)
  /-- The `DeleteStmt`. -/
  | deleteStmt (relname : String) (whereClause : Option Node)
      (returningList : List Node)
  /-- The `CreateStmt`: relation name, table elements, `OfTypename` names. -/
  | createStmt (relname : String) (tableElts : List TableElt)
      (ofTypename : Option (List String))

inductive TableElt : Type where
  /-- a table-level `Constraint` element (its SQL text, for deparsing). -/
  | constraintElt (txt : String)
  /-- a `ColumnDef`: column name, the `TypeName.Names` list, and any
  column-level constraints (their SQL text). -/
  | columnDef (colname : String) (typeNames : List String)
      (colConstraints : List String)
end

/-- The validator error kinds of `pkg/parsing` (`ErrEmptyStatement`,
`ErrNoSingleStatement`, ...).  The Go code threads them through
`fmt.Errorf("...: %w", err)` wrappers that `errors.As` sees through, so
the embedding returns the kind itself.  `emptyNode` / `unexpectedNode`
are the internal sentinel errors `errEmptyNode` / `errUnexpectedNodeType`. -/
inductive PErr : Type where
  | invalidSyntax
  | emptyStatement
  | noSingleStatement
  | noTopLevelUpdateInsertDelete
  | noTopLevelCreate
  | joinOrSubquery
  | returningClause
  | systemTableReferencing
  | nonDeterministicFunction
  | noForUpdateOrShare
  | invalidColumnType (columnType : String)
  | multiTableReference (ref1 ref2 : String)
  | emptyNode
  | unexpectedNode
  | errMsg (msg : String)
  deriving DecidableEq, Repr

/-- The `checkNonEmptyStatement`: no parsed statements is `ErrEmptyStatement`. -/
def checkNonEmptyStatement (parsed : List Node) : Except PErr Unit :=
  if parsed.length = 0 then .error .emptyStatement else .ok ()

/-- The `checkSingleStatement`: exactly one parsed statement or
`ErrNoSingleStatement`. -/
def checkSingleStatement (parsed : List Node) : Except PErr Unit :=
  if parsed.length ≠ 1 then .error .noSingleStatement else .ok ()

/-- The `checkTopLevelUpdateInsertDelete`: the node must be an
INSERT/UPDATE/DELETE statement. -/
def checkTopLevelUpdateInsertDelete (node : Node) : Except PErr Unit :=
  match node with
  | .updateStmt .. => .ok ()
  | .insertStmt .. => .ok ()
  | .deleteStmt .. => .ok ()
  | _ => .error .noTopLevelUpdateInsertDelete

/-- The `checkTopLevelCreate`: the node must be a CREATE TABLE statement. -/
def checkTopLevelCreate (node : Node) : Except PErr Unit :=
  match node with
  | .createStmt .. => .ok ()
  | _ => .error .noTopLevelCreate

/-- The `checkNoForUpdateOrShare`: reject a SELECT carrying any locking
clause (`FOR UPDATE`/`FOR SHARE`); a nil node is `errEmptyNode`. -/
def checkNoForUpdateOrShare (node : Option Node) : Except PErr Unit :=
  match node with
  | none => .error .emptyNode
  | some (.selectStmt _ _ _ _ lockingClause) =>
      if lockingClause.length > 0 then .error .noForUpdateOrShare else .ok ()
  | some _ => .ok ()

/-- The `checkNoReturningClause`: reject a RETURNING list on
UPDATE/INSERT/DELETE; any other node kind is `errUnexpectedNodeType` and
nil is `errEmptyNode`. -/
def checkNoReturningClause (node : Option Node) : Except PErr Unit :=
  match node with
  | none => .error .emptyNode
  | some (.updateStmt _ _ _ _ returningList) =>
      if returningList.length > 0 then .error .returningClause else .ok ()
  | some (.insertStmt _ _ returningList) =>
      if returningList.length > 0 then .error .returningClause else .ok ()
  | some (.deleteStmt _ _ returningList) =>
      if returningList.length > 0 then .error .returningClause else .ok ()
  | some _ => .error .unexpectedNode

/-- Go `strings.HasPrefix(s, pfx)`, embedded structurally over the
character lists so that it evaluates in the kernel. -/
def hasPfx (s pfx : String) : Bool := pfx.data.isPrefixOf s.data

mutual
/-- The `checkNoSystemTablesReferencing` on a non-nil node: reject any
relation whose name starts with the system table prefix, descending
through INSERT selects, SELECT FROM items, UPDATE FROM items, DELETE
WHERE clauses, range subselects and join arms; other node kinds pass.
(The nil guard of the Go function lives in
`checkNoSystemTablesReferencing`.) -/
def checkNoSystemTablesNode (sysPfx : String) : Node → Except PErr Unit
  | .rangeVar relname =>
      if hasPfx relname sysPfx then .error .systemTableReferencing else .ok ()
  | .insertStmt relname selStmt _ =>
      if hasPfx relname sysPfx then .error .systemTableReferencing
      else checkNoSystemTablesReferencing sysPfx selStmt
  | .selectStmt _ fromClause _ _ _ =>
      checkNoSystemTablesList sysPfx fromClause
  | .updateStmt relname _ fromClause _ _ =>
      if hasPfx relname sysPfx then .error .systemTableReferencing
      else checkNoSystemTablesList sysPfx fromClause
  | .deleteStmt relname whereClause _ =>
      if hasPfx relname sysPfx then .error .systemTableReferencing
      else checkNoSystemTablesReferencing sysPfx whereClause
  | .rangeSubselect subquery =>
      checkNoSystemTablesReferencing sysPfx subquery
  | .joinExpr larg rarg => do
      checkNoSystemTablesReferencing sysPfx larg
      checkNoSystemTablesReferencing sysPfx rarg
  | _ => .ok ()

/-- The `checkNoSystemTablesReferencing` (the Go entry, whose argument is a
nullable node: nil passes). -/
def checkNoSystemTablesReferencing (sysPfx : String) :
    Option Node → Except PErr Unit
  | none => .ok ()
  | some n => checkNoSystemTablesNode sysPfx n

/-- Fold `checkNoSystemTablesReferencing` over a node list (the `for`
loops of the Go function). -/
def checkNoSystemTablesList (sysPfx : String) : List Node → Except PErr Unit
  | [] => .ok ()
  | n :: rest => do
      checkNoSystemTablesNode sysPfx n
      checkNoSystemTablesList sysPfx rest
end

/-- The `getReferencedTable`: the relation name of an INSERT/UPDATE/DELETE. -/
def getReferencedTable (node : Node) : Except PErr String :=
  match node with
  | .insertStmt relname _ _ => .ok relname
  | .updateStmt relname _ _ _ _ => .ok relname
  | .deleteStmt relname _ _ => .ok relname
  | _ => .error (.errMsg "the statement is not an insert/update/delete")

mutual
/-- The `checkNonDeterministicFunctions` on a non-nil node: walk the tree and
reject any `SQLValueFunction` node.  The walk descends into list items,
INSERT selects, SELECT values lists and FROM items, UPDATE target lists /
FROM items / WHERE, DELETE WHERE, range subselects, join arms, `A_Expr`
sides and `ResTarget` values; any other node kind (a `BoolExpr` among
them) ends the walk. -/
def checkNonDeterministicNode : Node → Except PErr Unit
  | .sqlValueFunction => .error .nonDeterministicFunction
  | .listNode items => checkNonDeterministicList items
  | .insertStmt _ selStmt _ => checkNonDeterministicFunctions selStmt
  | .selectStmt _ fromClause _ valuesLists _ => do
      checkNonDeterministicList valuesLists
      checkNonDeterministicList fromClause
  | .updateStmt _ targetList fromClause whereClause _ => do
      checkNonDeterministicList targetList
      checkNonDeterministicList fromClause
      checkNonDeterministicFunctions whereClause
  | .deleteStmt _ whereClause _ =>
      checkNonDeterministicFunctions whereClause
  | .rangeSubselect subquery => checkNonDeterministicFunctions subquery
  | .joinExpr larg rarg => do
      checkNonDeterministicFunctions larg
      checkNonDeterministicFunctions rarg
  | .aExpr _ lexpr rexpr => do
      checkNonDeterministicFunctions lexpr
      checkNonDeterministicFunctions rexpr
  | .resTarget _ val => checkNonDeterministicFunctions val
  | _ => .ok ()

/-- The `checkNonDeterministicFunctions` (the Go entry: nil passes). -/
def checkNonDeterministicFunctions : Option Node → Except PErr Unit
  | none => .ok ()
  | some n => checkNonDeterministicNode n

/-- Fold `checkNonDeterministicFunctions` over a node list. -/
def checkNonDeterministicList : List Node → Except PErr Unit
  | [] => .ok ()
  | n :: rest => do
      checkNonDeterministicNode n
      checkNonDeterministicList rest
end

mutual
/-- The `checkNoJoinOrSubquery` on a non-nil node: reject joins and
subqueries.  A SELECT without a `VALUES` list, a range subselect, a join
expression, a `SubLink`, and a non-empty UPDATE FROM clause are all
`ErrJoinOrSubquery`; the walk descends into `ResTarget` values, INSERT
selects, UPDATE/DELETE WHERE clauses, `A_Expr` sides and `BoolExpr`
arguments. -/
def checkNoJoinOrSubqueryNode : Node → Except PErr Unit
  | .resTarget _ val => checkNoJoinOrSubquery val
  | .selectStmt _ _ _ valuesLists _ =>
      if valuesLists.length = 0 then .error .joinOrSubquery else .ok ()
  | .rangeSubselect _ => .error .joinOrSubquery
  | .joinExpr _ _ => .error .joinOrSubquery
  | .insertStmt _ selStmt _ => checkNoJoinOrSubquery selStmt
  | .updateStmt _ _ fromClause whereClause _ =>
      if fromClause.length ≠ 0 then .error .joinOrSubquery
      else checkNoJoinOrSubquery whereClause
  | .deleteStmt _ whereClause _ => checkNoJoinOrSubquery whereClause
  | .aExpr _ lexpr rexpr => do
      checkNoJoinOrSubquery lexpr
      checkNoJoinOrSubquery rexpr
  | .subLink => .error .joinOrSubquery
  | .boolExpr _ args => checkNoJoinOrSubqueryList args
  | _ => .ok ()

/-- The `checkNoJoinOrSubquery` (the Go entry: nil passes). -/
def checkNoJoinOrSubquery : Option Node → Except PErr Unit
  | none => .ok ()
  | some n => checkNoJoinOrSubqueryNode n

/-- Fold `checkNoJoinOrSubquery` over a node list. -/
def checkNoJoinOrSubqueryList : List Node → Except PErr Unit
  | [] => .ok ()
  | n :: rest => do
      checkNoJoinOrSubqueryNode n
      checkNoJoinOrSubqueryList rest
end

/-- Modelled from the spec: the SQL text of a table element, used only by
the spec-modelled `Deparse` below. -/
def deparseTableElt : TableElt → String
  | .constraintElt txt => txt
  | .columnDef colname typeNames colConstraints =>
      String.intercalate " " (colname :: typeNames ++ colConstraints)

mutual
/-- Modelled from the spec: `Deparse(AST) → string` of the external
parser (`pg_query_go`, outside this repository; spec section 6 fixes only
that it deterministically re-emits SQL from an AST).  A plain structural
printer: each node kind prints its fields in source order. -/
def deparse : Node → String
  | .rangeVar r => r
  | .columnRef fs => String.intercalate "." fs
  | .aConst v => v
  | .sqlValueFunction => "current_timestamp"
  | .funcCall f args => f ++ "(" ++ deparseListSep ", " args ++ ")"
  | .resTarget name val =>
      if name = "" then deparseOpt val else name ++ " = " ++ deparseOpt val
  | .aExpr op lexpr rexpr => deparseOpt lexpr ++ " " ++ op ++ " " ++ deparseOpt rexpr
  | .boolExpr bop args => deparseListSep (" " ++ bop ++ " ") args
  | .subLink => "(sublink)"
  | .listNode items => "(" ++ deparseListSep ", " items ++ ")"
  | .rangeSubselect sq => "(" ++ deparseOpt sq ++ ")"
  | .joinExpr larg rarg => deparseOpt larg ++ " join " ++ deparseOpt rarg
  | .selectStmt targetList fromClause whereClause valuesLists lockingClause =>
      if valuesLists.length ≠ 0 then "values " ++ deparseListSep ", " valuesLists
      else "select " ++ deparseListSep ", " targetList ++
        " from " ++ deparseListSep ", " fromClause ++
        (match whereClause with
         | none => ""
         | some w => " where " ++ deparse w) ++
        (if lockingClause.length ≠ 0 then " for update" else "")
  | .insertStmt relname selStmt _ =>
      "insert into " ++ relname ++ " " ++ deparseOpt selStmt
  | .updateStmt relname targetList fromClause whereClause _ =>
      "update " ++ relname ++ " set " ++ deparseListSep ", " targetList ++
        (if fromClause.length ≠ 0 then " from " ++ deparseListSep ", " fromClause
         else "") ++
        (match whereClause with
         | none => ""
         | some w => " where " ++ deparse w)
  | .deleteStmt relname whereClause _ =>
      "delete from " ++ relname ++
        (match whereClause with
         | none => ""
         | some w => " where " ++ deparse w)
  | .createStmt relname tableElts _ =>
      "CREATE TABLE " ++ relname ++ " (" ++
        String.intercalate ", " (tableElts.map deparseTableElt) ++ ")"

/-- The `Deparse` of a nullable child (empty for nil). -/
def deparseOpt : Option Node → String
  | none => ""
  | some n => deparse n

/-- The `Deparse` of a node list with a separator. -/
def deparseListSep (sep : String) : List Node → String
  | [] => ""
  | [n] => deparse n
  | n :: rest => deparse n ++ sep ++ deparseListSep sep rest
end

/-- The `writeStmt` as produced by `ValidateRunSQL`: the deparsed raw query
and the referenced table name. -/
structure WriteStmtV : Type where
  rawQuery : String
  tableName : String
  deriving DecidableEq, Repr

/-- The classification `ValidateRunSQL` returns: a read query, or a write
query together with its statements. -/
inductive RunResult : Type where
  | readQuery
  | writeQuery (stmts : List WriteStmtV)
  deriving DecidableEq, Repr

/-- The `validateReadQuery`: on the (guaranteed) SELECT node, reject joins
and subqueries in WHERE, in every target-list item and in every FROM
item, then reject locking clauses. -/
def validateReadQuery (node : Node) : Except PErr Unit :=
  match node with
  | .selectStmt targetList fromClause whereClause valuesLists lockingClause => do
      checkNoJoinOrSubquery whereClause
      checkNoJoinOrSubqueryList targetList
      checkNoJoinOrSubqueryList fromClause
      checkNoForUpdateOrShare
        (some (.selectStmt targetList fromClause whereClause valuesLists lockingClause))
  | _ => .error .emptyNode

/-- The `validateWriteQuery` (per statement): top-level INSERT/UPDATE/DELETE,
no join or subquery, no RETURNING clause, no system-table reference, no
non-deterministic function; returns the referenced table name. -/
def validateWriteQuery (sysPfx : String) (stmt : Node) : Except PErr String := do
  checkTopLevelUpdateInsertDelete stmt
  checkNoJoinOrSubquery (some stmt)
  checkNoReturningClause (some stmt)
  checkNoSystemTablesReferencing sysPfx (some stmt)
  checkNonDeterministicFunctions (some stmt)
  getReferencedTable stmt

/-- The write-path loop of `ValidateRunSQL`: validate each statement,
check that every statement references the table of the first one
(`ErrMultiTableReference` on the first disagreement), and deparse each
statement into a `writeStmt` carrying the current target table. -/
def runSQLWriteLoop (sysPfx : String) :
    List Node → String → List WriteStmtV → Except PErr (List WriteStmtV)
  | [], _, acc => .ok acc.reverse
  | s :: rest, targetTable, acc => do
      let refTable ← validateWriteQuery sysPfx s
      if targetTable = "" then
        runSQLWriteLoop sysPfx rest refTable (⟨deparse s, refTable⟩ :: acc)
      else if targetTable ≠ refTable then
        .error (.multiTableReference targetTable refTable)
      else
        runSQLWriteLoop sysPfx rest targetTable (⟨deparse s, targetTable⟩ :: acc)

/-- The `ValidateRunSQL`: parse (external, the input here is the parsed
statement list), reject empty input, then branch on the first statement:
a SELECT gets the single-statement check and read validation, anything
else goes through the write-path loop. -/
def validateRunSQL (sysPfx : String) (parsed : List Node) :
    Except PErr RunResult := do
  checkNonEmptyStatement parsed
  match parsed with
  | [] => .error .emptyStatement
  | stmt :: _ =>
    match stmt with
    | .selectStmt .. => do
        checkSingleStatement parsed
        validateReadQuery stmt
        return .readQuery
    | _ => do
        let ws ← runSQLWriteLoop sysPfx parsed "" []
        return .writeQuery ws

/-! ### Create validation -/

/-- A `(colname, typename)` pair collected from a CREATE column. -/
structure ColNameType : Type where
  colName : String
  typeName : String
  deriving DecidableEq, Repr

/-- Modelled from the spec: the flattened accepted column type names.
`parsing.AcceptedTypes` (the source of truth flattened by `New`) lives in
`pkg/parsing`, which is not under `src/`; the list is the one the spec
(section 4.1.c) and the repository test `valid all` enumerate. -/
def acceptedTypesNames : List String :=
  ["int", "int2", "int4", "int8", "bigint", "smallint", "text", "varchar",
   "bpchar", "date", "bool", "float4", "float8", "numeric", "timestamp",
   "timestamptz", "uuid"]

/-- The inner loop of `checkCreateColTypes` over `TypeName.Names`: skip
`pg_catalog`, accept the first name on the allow-list, reject the first
name off it with `ErrInvalidColumnType`; a list that is exhausted leaves
the type name at its zero value. -/
def resolveColType (accepted : List String) : List String → Except PErr String
  | [] => .ok ""
  | name :: rest =>
      if name = "pg_catalog" then resolveColType accepted rest
      else if accepted.contains name then .ok name
      else .error (.invalidColumnType name)

/-- The `TableElts` loop of `checkCreateColTypes`: skip table-level
constraints, resolve each column type. -/
def collectColNameTypes (accepted : List String) :
    List TableElt → Except PErr (List ColNameType)
  | [] => .ok []
  | .constraintElt _ :: rest => collectColNameTypes accepted rest
  | .columnDef colname typeNames _ :: rest => do
      let tn ← resolveColType accepted typeNames
      let others ← collectColNameTypes accepted rest
      return ⟨colname, tn⟩ :: others

/-- The `stmt.GetCreateStmt()`: the node itself when it is a CREATE, nil
otherwise. -/
def getCreateStmtOf (stmt : Node) : Option Node :=
  match stmt with
  | .createStmt .. => some stmt
  | _ => none

/-- The `checkCreateColTypes`: a nil CREATE is `errEmptyNode`; the
`OfTypename` name nodes are strings by construction of the embedding, so
that loop cannot fail here; then collect the `(colname, typename)`
pairs. -/
def checkCreateColTypes (accepted : List String) :
    Option Node → Except PErr (List ColNameType)
  | none => .error .emptyNode
  | some (.createStmt _ tableElts _) => collectColNameTypes accepted tableElts
  | some _ => .error .emptyNode

/-- The relation name of a CREATE node
(`cNode.GetCreateStmt().Relation.Relname`). -/
def createRelname : Node → String
  | .createStmt relname _ _ => relname
  | _ => ""

/-- The `createStmt` value of `pkg/parsing/impl`: the CREATE AST, the
hex SHA-256 structure hash, and the user-chosen relation name. -/
structure CreateStmtVal : Type where
  cNode : Node
  structureHash : String
  namePfx : String

/-- The `col1:type1,col2:type2,...` string hashed by `genCreateStmt`. -/
def stringifyColDef (cols : List ColNameType) : String :=
  String.intercalate "," (cols.map (fun c => c.colName ++ ":" ++ c.typeName))

/-- The `genCreateStmt`: hash the stringified column definition and keep the
AST and the user relation name. -/
def genCreateStmt (cNode : Node) (cols : List ColNameType) : CreateStmtVal :=
  { cNode := cNode
    structureHash := sha256Hex (stringifyColDef cols)
    namePfx := createRelname cNode }

/-- The `ValidateCreateTable`: parse (external; input is the parsed list),
non-empty and single statement checks, top-level CREATE check, column
type checks, then build the `createStmt`. -/
def validateCreateTable (accepted : List String) (parsed : List Node) :
    Except PErr CreateStmtVal := do
  checkNonEmptyStatement parsed
  checkSingleStatement parsed
  match parsed with
  | [] => .error .emptyStatement
  | stmt :: _ => do
      checkTopLevelCreate stmt
      let colNameTypes ← checkCreateColTypes accepted (getCreateStmtOf stmt)
      return genCreateStmt stmt colNameTypes

/-! ### Binding a CreateStmt to a minted TableID

`TableID` is defined in `pkg/tables` / `pkg/parsing`, outside `src/`;
modelled from the spec (section 3): an unbounded non-negative integer,
so a `Nat`. -/

/-- Go `fmt.Sprintf("%016x", id)`: lowercase hex, zero-padded to a
minimum width of 16 digits. -/
def padHex16 (n : Nat) : String :=
  let ds := Nat.toDigits 16 n
  String.mk (List.replicate (16 - ds.length) '0' ++ ds)

/-- The bound relation identifier `"t" + fmt.Sprintf("0x%016x", id)`. -/
def boundRelname (id : Nat) : String := "t" ++ "0x" ++ padHex16 id

/-- In-place mutation of the CREATE AST relation name
(`cs.cNode.GetCreateStmt().Relation.Relname = ...`). -/
def setCreateRelname (node : Node) (newName : String) : Node :=
  match node with
  | .createStmt _ tableElts ofTypename => .createStmt newName tableElts ofTypename
  | n => n

/-- The `GetRawQueryForTableID`: mutate the stored AST relation name to the
bound identifier, deparse, and return the SQL together with the (mutated)
`createStmt` — the Go method mutates its receiver, so the embedding
returns the updated value explicitly. -/
def getRawQueryForTableID (cs : CreateStmtVal) (id : Nat) :
    String × CreateStmtVal :=
  let mutated := setCreateRelname cs.cNode (boundRelname id)
  (deparse mutated, { cs with cNode := mutated })

/-! ### `InsertTable` (processor.go:93-140)

The three store writes of `InsertTable` are modelled as an effect log;
`regErr`/`aclErr`/`createErr` are the outcomes of the three `tx.Exec`
calls.  `BeginFunc` rolls the savepoint back on error, so on failure the
log reverts to its initial value. -/

inductive TblEffect : Type where
  /-- The `INSERT INTO registry (id, controller, name, structure, description)`. -/
  | regInsert (id : Nat) (controller name structureHash description : String)
  /-- The `INSERT INTO system_acl (table_id, controller, privileges)`. -/
  | aclInsert (id : Nat) (controller : String) (privileges : List String)
  /-- The `tx.Exec` of a raw SQL string (the bound CREATE statement). -/
  | execSQL (sql : String)
  deriving DecidableEq, Repr

/-- The `BeginFunc` body of `InsertTable`: insert the registry row,
insert the `system_acl` row with the owner privileges `a`,`w`,`d`, bind
the CREATE to the minted id and execute it — in that order, each step
failing with its `%s`-wrapped store error. -/
def insertTableInner (regErr aclErr createErr : Option GoErr)
    (effects : List TblEffect) (id : Nat) (controller description : String)
    (cs : CreateStmtVal) : Except GoErr (List TblEffect) :=
  match regErr with
  | some e => .error (.str ("inserting new table in system-wide registry: " ++ e.message))
  | none =>
  match aclErr with
  | some e => .error (.str ("inserting new entry into system acl: " ++ e.message))
  | none =>
  let query := (getRawQueryForTableID cs id).1
  match createErr with
  | some e => .error (.str ("exec CREATE statement: " ++ e.message))
  | none =>
    .ok (effects ++
      [.regInsert id controller cs.namePfx cs.structureHash description,
       .aclInsert id controller ["a", "w", "d"],
       .execSQL query])

/-- The `InsertTable`: run the body under a savepoint; on failure the
savepoint is rolled back (the effect log reverts) and the error is
`%s`-wrapped as `processing register table`. -/
def insertTable (regErr aclErr createErr : Option GoErr)
    (effects : List TblEffect) (id : Nat) (controller description : String)
    (cs : CreateStmtVal) : List TblEffect × Option GoErr :=
  match insertTableInner regErr aclErr createErr effects id controller description cs with
  | .ok effs => (effs, none)
  | .error e => (effects, some (.str ("processing register table: " ++ e.message)))

/-! ### Tree-wide search for `SQLValueFunction`

The property side of claim C3: whether an AST contains a
`SQLValueFunction` node anywhere in its tree. -/

mutual
/-- True when a `SQLValueFunction` occurs anywhere in the node tree. -/
def containsSVF : Node → Bool
  | .sqlValueFunction => true
  | .rangeVar _ => false
  | .columnRef _ => false
  | .aConst _ => false
  | .subLink => false
  | .createStmt _ _ _ => false
  | .funcCall _ args => containsSVFList args
  | .resTarget _ val => containsSVFOpt val
  | .aExpr _ lexpr rexpr => containsSVFOpt lexpr || containsSVFOpt rexpr
  | .boolExpr _ args => containsSVFList args
  | .listNode items => containsSVFList items
  | .rangeSubselect sq => containsSVFOpt sq
  | .joinExpr larg rarg => containsSVFOpt larg || containsSVFOpt rarg
  | .selectStmt targetList fromClause whereClause valuesLists lockingClause =>
      containsSVFList targetList || containsSVFList fromClause ||
      containsSVFOpt whereClause || containsSVFList valuesLists ||
      containsSVFList lockingClause
  | .insertStmt _ selStmt returningList =>
      containsSVFOpt selStmt || containsSVFList returningList
  | .updateStmt _ targetList fromClause whereClause returningList =>
      containsSVFList targetList || containsSVFList fromClause ||
      containsSVFOpt whereClause || containsSVFList returningList
  | .deleteStmt _ whereClause returningList =>
      containsSVFOpt whereClause || containsSVFList returningList

/-- The `containsSVF` on a nullable child. -/
def containsSVFOpt : Option Node → Bool
  | none => false
  | some n => containsSVF n

/-- The `containsSVF` over a node list. -/
def containsSVFList : List Node → Bool
  | [] => false
  | n :: rest => containsSVF n || containsSVFList rest
end

/-- The read query `select * from system_tables` as the external parser
produces it: one SELECT with a star target and a single FROM relation. -/
def c2Query : Node :=
  .selectStmt [.resTarget "" (some (.columnRef ["*"]))]
    [.rangeVar "system_tables"] none [] []

/-- Statement `update foo set a=1 where b=current_timestamp and c=2`: the WHERE
clause is a `BoolExpr` conjunction with `CURRENT_TIMESTAMP`
(a `SQLValueFunction`) inside its first argument. -/
def c3Stmt : Node :=
  .updateStmt "foo" [.resTarget "a" (some (.aConst "1"))] []
    (some (.boolExpr "and"
      [.aExpr "=" (some (.columnRef ["b"])) (some .sqlValueFunction),
       .aExpr "=" (some (.columnRef ["c"])) (some (.aConst "2"))])) []

/-- Statement `update foo set a=1 where b=current_timestamp`: the same
`SQLValueFunction` sitting directly under the WHERE `A_Expr`. -/
def c3StmtPlain : Node :=
  .updateStmt "foo" [.resTarget "a" (some (.aConst "1"))] []
    (some (.aExpr "=" (some (.columnRef ["b"])) (some .sqlValueFunction))) []

/-! ## Theorems for the claims -/

/-- C2 (code bug): `validate_run` is claimed to reject every read query
that references a relation with the system prefix with
`SystemTableReferencing`; but `validateReadQuery` never invokes
`checkNoSystemTablesReferencing`, so the direct reference
`select * from system_tables` is accepted as a read query — even though
the system-table check itself (wired only into the write path) would
reject exactly this node, and the repository test expects
`ErrSystemTableReferencing` here. -/
theorem c2_read_path_accepts_system_table :
    validateRunSQL "system_" [c2Query] = .ok .readQuery ∧
    checkNoSystemTablesReferencing "system_" (some c2Query) =
      .error .systemTableReferencing :=
  ⟨rfl, rfl⟩

/-- C3 (code bug): a validated write statement is claimed to contain no
`SQLValueFunction` anywhere in its tree, in particular not inside a WHERE
clause headed by a `BoolExpr`; but `checkNonDeterministicFunctions` has
no `BoolExpr` branch (its sibling `checkNoJoinOrSubquery` does descend
into `BoolExpr` arguments), so the conjunction WHERE above is accepted
while it does contain a `SQLValueFunction` — the same function placed
directly under the WHERE clause is rejected. -/
theorem c3_bool_expr_hides_sql_value_function :
    validateRunSQL "system_" [c3Stmt] =
      .ok (.writeQuery [⟨deparse c3Stmt, "foo"⟩]) ∧
    containsSVF c3Stmt = true ∧
    validateRunSQL "system_" [c3StmtPlain] = .error .nonDeterministicFunction :=
  ⟨rfl, rfl, rfl⟩

/-- C9 (amended): once `Close` has returned success it has consumed the
batch token for good, so every later `OpenBatch` call blocks forever on
the empty token channel: it returns neither a batch nor an error. -/
theorem c9_open_batch_blocks_after_close (tp tpNext : TblTxnProcessor)
    (ctxIsDone beginTxOk : Bool)
    (h : closeProcessor tp ctxIsDone = some (.closedOk, tpNext)) :
    openBatch tpNext beginTxOk = (.blocked, tpNext) := by
  unfold closeProcessor at h
  by_cases htok : tp.tokenInChannel
  · simp [htok] at h
    simp [openBatch, ← h, htok]
  · by_cases hctx : ctxIsDone <;> simp [htok, hctx] at h

/-- C9 counterexample: the claim says `open_batch` returns an error after
a successful close; on a concretely closed processor it instead blocks,
returning neither an error nor a batch. -/
theorem c9_counterexample :
    closeProcessor { maxTableRowCount := 500000, tokenInChannel := true } false =
      some (.closedOk, { maxTableRowCount := 500000, tokenInChannel := false }) ∧
    (openBatch { maxTableRowCount := 500000, tokenInChannel := false } true).1 =
      .blocked ∧
    (openBatch { maxTableRowCount := 500000, tokenInChannel := false } true).1.isError
      = false ∧
    (openBatch { maxTableRowCount := 500000, tokenInChannel := false } true).1.isBatch
      = false := by
  refine ⟨rfl, rfl, rfl, rfl⟩

/-- C9 witness: the amended theorem applied to the concrete closed
processor. -/
theorem c9_open_batch_blocks_after_close_witness :
    openBatch { maxTableRowCount := 500000, tokenInChannel := false } true =
      (.blocked, { maxTableRowCount := 500000, tokenInChannel := false }) :=
  c9_open_batch_blocks_after_close
    { maxTableRowCount := 500000, tokenInChannel := true }
    { maxTableRowCount := 500000, tokenInChannel := false } false true rfl

/-- C10: `NewTxnProcessor` fails (returning an error and no processor)
for every negative `maxTableRowCount`, whatever the postgres connection
outcome; a non-negative `maxTableRowCount` never trips that validation
step, and with a successful connection the processor is allocated. -/
theorem c10_negative_max_row_count_rejected (connectOk : Bool)
    (maxTableRowCount : Int) :
    (maxTableRowCount < 0 →
      ∃ e, newTxnProcessor connectOk maxTableRowCount = .error e) ∧
    (0 ≤ maxTableRowCount →
      newTxnProcessor connectOk maxTableRowCount ≠
        .error (.str "maximum table row count is negative") ∧
      (connectOk = true →
        newTxnProcessor connectOk maxTableRowCount =
          .ok { maxTableRowCount := maxTableRowCount, tokenInChannel := true })) := by
  constructor
  · intro hneg
    cases connectOk with
    | false => exact ⟨.str "connecting to postgres: connection error", by simp [newTxnProcessor]⟩
    | true =>
      refine ⟨.str "maximum table row count is negative", ?_⟩
      simp [newTxnProcessor, hneg]
  · intro hpos
    have hnotneg : ¬maxTableRowCount < 0 := by omega
    constructor
    · cases connectOk with
      | false => simp [newTxnProcessor]
      | true => simp [newTxnProcessor, hnotneg]
    · intro hconn
      subst hconn
      simp [newTxnProcessor, hnotneg]

/-- C10 witness: the theorem instantiated at `maxTableRowCount = -1`
(rejected) and at `maxTableRowCount = 0` (validation passes and the
processor is allocated). -/
theorem c10_negative_max_row_count_rejected_witness :
    (∃ e, newTxnProcessor true (-1) = .error e) ∧
    newTxnProcessor true 0 =
      .ok { maxTableRowCount := 0, tokenInChannel := true } :=
  ⟨(c10_negative_max_row_count_rejected true (-1)).1 (by decide),
   ((c10_negative_max_row_count_rejected true 0).2 (by decide)).2 rfl⟩

/-- Inversion of `validateCreateTable`: an accepted CREATE came from a
single top-level CREATE node whose columns resolved to `cols`, and the
result is exactly `genCreateStmt` of that node. -/
theorem validateCreateTable_shape (accepted : List String) (parsed : List Node)
    (cs : CreateStmtVal) (h : validateCreateTable accepted parsed = .ok cs) :
    ∃ relname tableElts ofTypename cols,
      parsed = [.createStmt relname tableElts ofTypename] ∧
      collectColNameTypes accepted tableElts = .ok cols ∧
      cs = genCreateStmt (.createStmt relname tableElts ofTypename) cols := by
  cases parsed with
  | nil =>
    simp [validateCreateTable, checkNonEmptyStatement, Bind.bind, Except.bind] at h
  | cons stmt rest =>
    cases rest with
    | cons second rest2 =>
      simp [validateCreateTable, checkNonEmptyStatement, checkSingleStatement,
        Bind.bind, Except.bind] at h
    | nil =>
      cases stmt
      case createStmt relname tableElts ofTypename =>
        cases hc : collectColNameTypes accepted tableElts with
        | error e =>
          simp [validateCreateTable, checkNonEmptyStatement, checkSingleStatement,
            checkTopLevelCreate, checkCreateColTypes, getCreateStmtOf, hc,
            Bind.bind, Except.bind, Functor.map, Except.map] at h
        | ok cols =>
          simp [validateCreateTable, checkNonEmptyStatement, checkSingleStatement,
            checkTopLevelCreate, checkCreateColTypes, getCreateStmtOf, hc,
            Bind.bind, Except.bind, Functor.map, Except.map, Pure.pure,
            Except.pure] at h
          exact ⟨relname, tableElts, ofTypename, cols, rfl, hc, h.symm⟩
      all_goals
        simp [validateCreateTable, checkNonEmptyStatement, checkSingleStatement,
          checkTopLevelCreate, checkCreateColTypes, getCreateStmtOf,
          Bind.bind, Except.bind, Functor.map, Except.map] at h

/-- Rebinding a `createStmt` never touches its stored structure hash:
`GetRawQueryForTableID` mutates only the AST relation name. -/
theorem foldl_bind_structure_hash (cs : CreateStmtVal) (ids : List Nat) :
    (ids.foldl (fun acc j => (getRawQueryForTableID acc j).2) cs).structureHash =
      cs.structureHash := by
  induction ids generalizing cs with
  | nil => rfl
  | cons j rest ih =>
    rw [List.foldl_cons, ih]
    rfl

/-- C7 (amended): for a Validator-accepted CreateStmt, binding twice to
the same id yields the identical SQL string; the emitted SQL is always a
fixed head, the bound relation identifier, and a fixed tail, so binds to
different ids differ only in that identifier; the identifier is the
literal `t0x` followed by the id in lowercase hex zero-padded to at least
16 digits — exactly 16 whenever `id < 2 ^ 64`; and the stored structure
hash is unchanged by any sequence of binds. -/
theorem c7_create_stmt_binding (parsed : List Node) (cs : CreateStmtVal)
    (h : validateCreateTable acceptedTypesNames parsed = .ok cs) (id : Nat) :
    (getRawQueryForTableID (getRawQueryForTableID cs id).2 id).1 =
      (getRawQueryForTableID cs id).1 ∧
    (∃ tail, ∀ j : Nat,
      (getRawQueryForTableID cs j).1 = "CREATE TABLE " ++ boundRelname j ++ tail) ∧
    boundRelname id = "t0x" ++ padHex16 id ∧
    (id < 2 ^ 64 → (padHex16 id).length = 16) ∧
    (∀ ids : List Nat,
      (ids.foldl (fun acc j => (getRawQueryForTableID acc j).2) cs).structureHash =
        cs.structureHash) := by
  obtain ⟨relname, tableElts, ofTypename, cols, -, -, hcs⟩ :=
    validateCreateTable_shape acceptedTypesNames parsed cs h
  subst hcs
  refine ⟨?_, ?_, ?_, ?_, fun ids => foldl_bind_structure_hash _ ids⟩
  · simp [getRawQueryForTableID, genCreateStmt, setCreateRelname]
  · refine ⟨" (" ++ String.intercalate ", " (tableElts.map deparseTableElt) ++ ")",
      fun j => ?_⟩
    simp [getRawQueryForTableID, genCreateStmt, setCreateRelname, deparse,
      String.append_assoc]
  · simp [boundRelname]
  · intro hlt
    have hlen : (Nat.toDigits 16 id).length ≤ 16 := by
      have h16 := Nat.toDigitsCore_length 16 (by omega) (id + 1) id 16
        (by simpa using hlt) (by omega)
      simpa [Nat.toDigits] using h16
    have hpad : (padHex16 id).length =
        (16 - (Nat.toDigits 16 id).length) + (Nat.toDigits 16 id).length := by
      simp [padHex16, String.length]
    omega

/-- C7 counterexample: the claim fixes the bound identifier at exactly 16
hex digits for *every* TableID, but a TableID is unbounded and Go
zero-pads `%016x` only to a minimum width: at `id = 2 ^ 64` the bound
identifier has 17 hex digits. -/
theorem c7_counterexample :
    boundRelname (2 ^ 64) = "t0x10000000000000000" ∧
    (padHex16 (2 ^ 64)).length = 17 ∧
    (getRawQueryForTableID
        (genCreateStmt (.createStmt "foo" [.columnDef "a" ["int"] []] none)
          [⟨"a", "int"⟩]) (2 ^ 64)).1 =
      "CREATE TABLE t0x10000000000000000 (a int)" := by
  refine ⟨by decide, by decide, rfl⟩

/-- C7 witness: the amended theorem applied to the concrete accepted
`create table foo (a int)` and `id = 42`. -/
theorem c7_create_stmt_binding_witness :
    (getRawQueryForTableID
      (getRawQueryForTableID
        (genCreateStmt (.createStmt "foo" [.columnDef "a" ["int"] []] none)
          [⟨"a", "int"⟩]) 42).2 42).1 =
    (getRawQueryForTableID
      (genCreateStmt (.createStmt "foo" [.columnDef "a" ["int"] []] none)
        [⟨"a", "int"⟩]) 42).1 :=
  (c7_create_stmt_binding [.createStmt "foo" [.columnDef "a" ["int"] []] none]
    (genCreateStmt (.createStmt "foo" [.columnDef "a" ["int"] []] none)
      [⟨"a", "int"⟩]) rfl 42).1

/-- C6 (amended): the structure hash depends only on the collected
`(colname, typename)` list — so it is invariant under whitespace (absent
from the AST), under column-level constraint addition and under
table-level constraint insertion anywhere (constraints are skipped by the
collection) — and two hashes differ when the comma-joined
`colname:typename` encodings differ, as in the concrete `a:int` versus
`b:int`; but equality of that encoding, not of the column lists, is what
determines the hash, and distinct column lists can share an encoding when
a column name contains a colon or comma. -/
theorem c6_structure_hash_amended :
    (∀ (n1 n2 : Node) (cols : List ColNameType),
      (genCreateStmt n1 cols).structureHash =
        (genCreateStmt n2 cols).structureHash) ∧
    (∀ (accepted : List String) (txt : String) (elts : List TableElt),
      collectColNameTypes accepted (.constraintElt txt :: elts) =
        collectColNameTypes accepted elts) ∧
    (∀ (accepted : List String) (colname : String)
        (typeNames cons1 cons2 : List String) (elts : List TableElt),
      collectColNameTypes accepted (.columnDef colname typeNames cons1 :: elts) =
        collectColNameTypes accepted (.columnDef colname typeNames cons2 :: elts)) ∧
    sha256Hex (stringifyColDef [⟨"a", "int"⟩]) ≠
      sha256Hex (stringifyColDef [⟨"b", "int"⟩]) := by
  refine ⟨fun n1 n2 cols => rfl, fun accepted txt elts => rfl,
    fun accepted colname typeNames cons1 cons2 elts => rfl, by decide⟩

/-- C6 counterexample: two accepted CREATE statements whose column names
differ (`a:int,b` in one column versus `a` and `b` in two columns) but
whose structure hashes are equal, because the `colname:typename` encoding
of both column lists is the string `a:int,b:int`. -/
theorem c6_counterexample :
    (validateCreateTable acceptedTypesNames
        [.createStmt "foo" [.columnDef "a:int,b" ["int"] []] none]).map
      CreateStmtVal.structureHash =
    (validateCreateTable acceptedTypesNames
        [.createStmt "foo"
          [.columnDef "a" ["int"] [], .columnDef "b" ["int"] []] none]).map
      CreateStmtVal.structureHash ∧
    (validateCreateTable acceptedTypesNames
        [.createStmt "foo" [.columnDef "a:int,b" ["int"] []] none]).map
      CreateStmtVal.structureHash =
      .ok (sha256Hex (stringifyColDef [⟨"a:int,b", "int"⟩])) ∧
    stringifyColDef [⟨"a:int,b", "int"⟩] = "a:int,b:int" ∧
    stringifyColDef [⟨"a", "int"⟩, ⟨"b", "int"⟩] = "a:int,b:int" ∧
    collectColNameTypes acceptedTypesNames [.columnDef "a:int,b" ["int"] []] =
      .ok [⟨"a:int,b", "int"⟩] ∧
    collectColNameTypes acceptedTypesNames
        [.columnDef "a" ["int"] [], .columnDef "b" ["int"] []] =
      .ok [⟨"a", "int"⟩, ⟨"b", "int"⟩] ∧
    ("a:int,b" : String) ≠ "a" := by
  refine ⟨rfl, rfl, rfl, rfl, rfl, rfl, by decide⟩

/-- C6 witness: the amended theorem instantiated concretely — the hash of
`create table foo (a int)` equals the hash of
`create table bar (a int primary key, unique(a))` (same single column
`a:int`, extra constraints, different whitespace/name). -/
theorem c6_structure_hash_amended_witness :
    (genCreateStmt (.createStmt "foo" [.columnDef "a" ["int"] []] none)
      [⟨"a", "int"⟩]).structureHash =
    (genCreateStmt (.createStmt "bar"
        [.columnDef "a" ["int"] ["primary key"], .constraintElt "unique (a)"] none)
      [⟨"a", "int"⟩]).structureHash :=
  c6_structure_hash_amended.1
    (.createStmt "foo" [.columnDef "a" ["int"] []] none)
    (.createStmt "bar"
      [.columnDef "a" ["int"] ["primary key"], .constraintElt "unique (a)"] none)
    [⟨"a", "int"⟩]

/-- C8: `InsertTable` on success appends exactly the registry row
`(id, controller, name_prefix, structure_hash, description)`, the
`system_acl` row `(id, controller, [a,w,d])` and the execution of the
CREATE statement bound to `id`, in that order; when any of the three
steps fails, no effect persists (the savepoint is rolled back) and an
error carrying the failing step's underlying error is returned. -/
theorem c8_insert_table_effects (effects : List TblEffect) (id : Nat)
    (controller description : String) (parsed : List Node) (cs : CreateStmtVal)
    (_hcs : validateCreateTable acceptedTypesNames parsed = .ok cs) :
    insertTable none none none effects id controller description cs =
      (effects ++
        [.regInsert id controller cs.namePfx cs.structureHash description,
         .aclInsert id controller ["a", "w", "d"],
         .execSQL (getRawQueryForTableID cs id).1], none) ∧
    (∀ (e : GoErr) (aclErr createErr : Option GoErr),
      insertTable (some e) aclErr createErr effects id controller description cs =
        (effects, some (.str ("processing register table: " ++
          ("inserting new table in system-wide registry: " ++ e.message))))) ∧
    (∀ (e : GoErr) (createErr : Option GoErr),
      insertTable none (some e) createErr effects id controller description cs =
        (effects, some (.str ("processing register table: " ++
          ("inserting new entry into system acl: " ++ e.message))))) ∧
    (∀ e : GoErr,
      insertTable none none (some e) effects id controller description cs =
        (effects, some (.str ("processing register table: " ++
          ("exec CREATE statement: " ++ e.message))))) :=
  ⟨rfl, fun _ _ _ => rfl, fun _ _ => rfl, fun _ => rfl⟩

/-- C8 witness: an accepted `create table foo (a int)` registered as
table id 5 — the three effects in order on success, and the rollback with
the surfaced error when the registry insert fails. -/
theorem c8_insert_table_effects_witness :
    insertTable none none none [] 5 "0xcaller" "the desc"
      (genCreateStmt (.createStmt "foo" [.columnDef "a" ["int"] []] none)
        [⟨"a", "int"⟩]) =
      ([.regInsert 5 "0xcaller" "foo"
          (sha256Hex (stringifyColDef [⟨"a", "int"⟩])) "the desc",
        .aclInsert 5 "0xcaller" ["a", "w", "d"],
        .execSQL "CREATE TABLE t0x0000000000000005 (a int)"], none) ∧
    stringifyColDef [⟨"a", "int"⟩] = "a:int" ∧
    insertTable (some (.str "boom")) none none [] 5 "0xcaller" "the desc"
      (genCreateStmt (.createStmt "foo" [.columnDef "a" ["int"] []] none)
        [⟨"a", "int"⟩]) =
      ([], some (.str
        "processing register table: inserting new table in system-wide registry: boom")) :=
  ⟨(c8_insert_table_effects [] 5 "0xcaller" "the desc"
      [.createStmt "foo" [.columnDef "a" ["int"] []] none]
      (genCreateStmt (.createStmt "foo" [.columnDef "a" ["int"] []] none)
        [⟨"a", "int"⟩]) rfl).1,
   rfl,
   ((c8_insert_table_effects [] 5 "0xcaller" "the desc"
      [.createStmt "foo" [.columnDef "a" ["int"] []] none]
      (genCreateStmt (.createStmt "foo" [.columnDef "a" ["int"] []] none)
        [⟨"a", "int"⟩]) rfl).2.1 (.str "boom") none none).trans (by decide)⟩

/-- A batch whose statement loop succeeds with no INSERT never raises the
touched table's row count: updates keep it, deletes lower it. -/
theorem ewqLoop_no_insert_le (maxTableRowCount beforeRowCount : Nat)
    (dbName : String) (stmts : List MutStmt) (c f : Nat)
    (h : ewqLoop maxTableRowCount beforeRowCount dbName c stmts = .ok f)
    (hni : insertCount stmts = 0) : f ≤ c := by
  induction stmts generalizing c with
  | nil =>
    simp [ewqLoop] at h
    omega
  | cons mq rest ih =>
    by_cases hp : mq.namePfx ≠ "" ∧ dbName ≠ mq.namePfx
    · simp [ewqLoop, if_pos hp] at h
    · cases mq with
      | grant pfx res =>
        cases res with
        | some e => simp [ewqLoop, if_neg hp] at h
        | none =>
          simp only [ewqLoop, if_neg hp] at h
          exact ih c h (by simpa [insertCount] using hni)
      | write pfx op affected aclErr desugarErr execErr =>
        cases aclErr with
        | some e => simp [ewqLoop, if_neg hp, executeWriteStmt] at h
        | none =>
        cases desugarErr with
        | some e => simp [ewqLoop, if_neg hp, executeWriteStmt] at h
        | none =>
        cases execErr with
        | some e => simp [ewqLoop, if_neg hp, executeWriteStmt] at h
        | none =>
        cases op with
        | ins => simp [insertCount] at hni
        | upd =>
          simp [ewqLoop, if_neg hp, executeWriteStmt, applyWriteOp] at h
          exact ih c h (by simpa [insertCount] using hni)
        | del =>
          simp [ewqLoop, if_neg hp, executeWriteStmt, applyWriteOp] at h
          exact le_trans (ih (c - affected) h (by simpa [insertCount] using hni))
            (Nat.sub_le c affected)

/-- A successful statement loop containing at most one INSERT ends at or
below the cap, provided the loop's running count starts at or below the
batch-start count and that start count is within the cap: the single
INSERT's check `beforeRowCount + affected ≤ max` then really bounds the
final count. -/
theorem ewqLoop_le_cap (maxTableRowCount count0 : Nat) (dbName : String)
    (stmts : List MutStmt) (c f : Nat)
    (h : ewqLoop maxTableRowCount count0 dbName c stmts = .ok f)
    (hins : insertCount stmts ≤ 1) (hc : c ≤ count0)
    (hstart : count0 ≤ maxTableRowCount) (hmax : 0 < maxTableRowCount) :
    f ≤ maxTableRowCount := by
  induction stmts generalizing c with
  | nil =>
    simp [ewqLoop] at h
    omega
  | cons mq rest ih =>
    by_cases hp : mq.namePfx ≠ "" ∧ dbName ≠ mq.namePfx
    · simp [ewqLoop, if_pos hp] at h
    · cases mq with
      | grant pfx res =>
        cases res with
        | some e => simp [ewqLoop, if_neg hp] at h
        | none =>
          simp only [ewqLoop, if_neg hp] at h
          exact ih c h (by simpa [insertCount] using hins) hc
      | write pfx op affected aclErr desugarErr execErr =>
        cases aclErr with
        | some e => simp [ewqLoop, if_neg hp, executeWriteStmt] at h
        | none =>
        cases desugarErr with
        | some e => simp [ewqLoop, if_neg hp, executeWriteStmt] at h
        | none =>
        cases execErr with
        | some e => simp [ewqLoop, if_neg hp, executeWriteStmt] at h
        | none =>
        cases op with
        | ins =>
          simp [ewqLoop, if_neg hp, executeWriteStmt, applyWriteOp, hmax] at h
          split at h
          · simp at h
          · simp at h
          · rename_i x cNext heq
            split at heq
            · simp at heq
            · rename_i hle
              injection heq with h1 h2
              rw [← h1] at h
              have hrest : insertCount rest = 0 := by
                simp [insertCount] at hins
                omega
              have hfin := ewqLoop_no_insert_le maxTableRowCount count0 dbName rest
                (c + affected) f h hrest
              omega
        | upd =>
          simp [ewqLoop, if_neg hp, executeWriteStmt, applyWriteOp] at h
          exact ih c h (by simpa [insertCount] using hins) hc
        | del =>
          simp [ewqLoop, if_neg hp, executeWriteStmt, applyWriteOp] at h
          exact ih (c - affected) h (by simpa [insertCount] using hins) (by omega)

/-- C1 (amended): a successfully committed batch leaves the touched table
at `COUNT(*) ≤ MaxRowCount` (positive cap, table within the cap when the
batch starts) provided the batch contains at most one INSERT statement.
With several INSERTs the bound fails, because each statement's check uses
the row count observed at the start of the batch plus only that
statement's rows affected. -/
theorem c1_row_cap_at_most_one_insert (maxTableRowCount : Nat)
    (dbName : String) (count0 : Nat) (stmts : List MutStmt) (final : Nat)
    (hmax : 0 < maxTableRowCount) (hstart : count0 ≤ maxTableRowCount)
    (hins : insertCount stmts ≤ 1)
    (hrun : execWriteQueries maxTableRowCount dbName none count0 stmts =
      (final, none)) :
    final ≤ maxTableRowCount := by
  unfold execWriteQueries at hrun
  split at hrun
  · simp at hrun
    omega
  · simp only [] at hrun
    cases hloop : ewqLoop maxTableRowCount count0 dbName count0 stmts with
    | ok c =>
      rw [hloop] at hrun
      simp at hrun
      have := ewqLoop_le_cap maxTableRowCount count0 dbName stmts count0 c
        hloop hins (le_refl count0) hstart hmax
      omega
    | error e =>
      rw [hloop] at hrun
      simp at hrun

/-- C1 counterexample: with cap 1 and an empty table, a batch of two
single-row INSERTs commits successfully and leaves the table at 2 rows —
each INSERT's check only sees `0 + 1 ≤ 1`. -/
theorem c1_counterexample :
    execWriteQueries 1 "foo" none 0
      [.write "" .ins 1 none none none, .write "" .ins 1 none none none] =
      (2, none) ∧ ¬(2 ≤ 1) :=
  ⟨rfl, by decide⟩

/-- C1 witness: the amended bound applied to a concrete batch — cap 10,
9 rows at batch start, one INSERT of one row: the batch succeeds and the
table ends at 10 ≤ 10. -/
theorem c1_row_cap_at_most_one_insert_witness :
    execWriteQueries 10 "foo" none 9 [.write "" .ins 1 none none none] =
      (10, none) ∧ 10 ≤ 10 :=
  ⟨rfl, c1_row_cap_at_most_one_insert 10 "foo" 9
    [.write "" .ins 1 none none none] 10 (by decide) (by decide) (by decide) rfl⟩

/-- The statement loop over a concatenation: run the first part, then —
unless it failed — the second from the reached count. -/
theorem ewqLoop_append (maxTableRowCount beforeRowCount : Nat) (dbName : String)
    (c : Nat) (l1 l2 : List MutStmt) :
    ewqLoop maxTableRowCount beforeRowCount dbName c (l1 ++ l2) =
      match ewqLoop maxTableRowCount beforeRowCount dbName c l1 with
      | .ok cNext => ewqLoop maxTableRowCount beforeRowCount dbName cNext l2
      | .error e => .error e := by
  induction l1 generalizing c with
  | nil => simp [ewqLoop]
  | cons mq rest ih =>
    simp only [List.cons_append, ewqLoop]
    split
    · rfl
    · cases mq with
      | grant pfx res =>
        cases res with
        | some e => rfl
        | none => exact ih c
      | write pfx op affected aclErr desugarErr execErr =>
        cases hes : executeWriteStmt maxTableRowCount beforeRowCount
            aclErr desugarErr execErr op affected c with
        | mk cN r =>
          simp only [hes]
          cases r with
          | none => exact ih cN
          | some e => cases e <;> rfl

/-- C4: with the ACL check, the desugaring and the store execution all
succeeding, `executeWriteStmt` returns `ErrRowCountExceeded` — and then
exactly `RowCountExceeded{before, before + affected}`, no other error —
iff the cap is positive, the command was an INSERT and
`beforeRowCount + rows_affected` exceeds the cap; and when a statement of
a batch trips it, `ExecWriteQueries` leaves the batch state unchanged
(savepoint rolled back to the starting row count) and surfaces an error
from which `errors.As` recovers that very `RowCountExceeded` payload —
unlike every other write-statement error, which is flattened by the
`executing write stmt` `%s`-wrap before the `running nested txn`
`%w`-wrap. -/
theorem c4_row_count_exceeded_iff (maxTableRowCount beforeRowCount affected c : Nat)
    (op : WriteOp) :
    ((executeWriteStmt maxTableRowCount beforeRowCount none none none
        op affected c).2 =
      some (.rowCountExceeded beforeRowCount (beforeRowCount + affected)) ↔
      0 < maxTableRowCount ∧ op = .ins ∧
        maxTableRowCount < beforeRowCount + affected) ∧
    (∀ e, (executeWriteStmt maxTableRowCount beforeRowCount none none none
        op affected c).2 = some e →
      e = .rowCountExceeded beforeRowCount (beforeRowCount + affected)) ∧
    (∀ (dbName : String) (count0 : Nat) (pre post : List MutStmt) (cMid : Nat),
      ewqLoop maxTableRowCount count0 dbName count0 pre = .ok cMid →
      dbName ≠ "" →
      0 < maxTableRowCount →
      maxTableRowCount < count0 + affected →
      execWriteQueries maxTableRowCount dbName none count0
          (pre ++ .write "" .ins affected none none none :: post) =
        (count0, some (.wrap "running nested txn"
          (.rowCountExceeded count0 (count0 + affected)))) ∧
      GoErr.asRowCountExceeded (.wrap "running nested txn"
          (.rowCountExceeded count0 (count0 + affected))) =
        some (count0, count0 + affected)) := by
  refine ⟨?_, ?_, ?_⟩
  · constructor
    · intro h
      simp only [executeWriteStmt] at h
      split at h
      · rename_i hcond
        split at h
        · rename_i hlt
          exact ⟨hcond.1, hcond.2, hlt⟩
        · simp at h
      · simp at h
    · rintro ⟨hmax, hop, hlt⟩
      subst hop
      simp [executeWriteStmt, hmax, hlt]
  · intro e h
    simp only [executeWriteStmt] at h
    split at h
    · split at h
      · simp at h
        exact h.symm
      · simp at h
    · simp at h
  · intro dbName count0 pre post cMid hpre hdb hmax hlt
    refine ⟨?_, rfl⟩
    have hloop : ewqLoop maxTableRowCount count0 dbName count0
        (pre ++ .write "" .ins affected none none none :: post) =
        .error (.rowCountExceeded count0 (count0 + affected)) := by
      rw [ewqLoop_append, hpre]
      have hstep : ewqLoop maxTableRowCount count0 dbName cMid
          (.write "" .ins affected none none none :: post) =
          .error (.rowCountExceeded count0 (count0 + affected)) := by
        have hp : ¬((MutStmt.write "" WriteOp.ins affected none none
            none).namePfx ≠ "" ∧
            dbName ≠ (MutStmt.write "" WriteOp.ins affected none none
              none).namePfx) := by
          simp [MutStmt.namePfx]
        simp [ewqLoop, if_neg hp, executeWriteStmt, applyWriteOp, hmax, hlt]
      exact hstep
    unfold execWriteQueries
    rw [if_neg (by simp), hloop]

/-- C4 witness: the spec's concrete scenario — cap 10, 9 rows at batch
start, one INSERT of 2 rows: the statement fails with
`RowCountExceeded{9, 11}`, the batch surfaces it recoverably and the
table stays at 9. -/
theorem c4_row_count_exceeded_iff_witness :
    (executeWriteStmt 10 9 none none none .ins 2 9).2 =
      some (.rowCountExceeded 9 11) ∧
    execWriteQueries 10 "foo" none 9 [.write "" .ins 2 none none none] =
      (9, some (.wrap "running nested txn" (.rowCountExceeded 9 11))) ∧
    GoErr.asRowCountExceeded
      (.wrap "running nested txn" (.rowCountExceeded 9 11)) = some (9, 11) :=
  ⟨(c4_row_count_exceeded_iff 10 9 2 9 .ins).1.mpr ⟨by decide, rfl, by decide⟩,
   ((c4_row_count_exceeded_iff 10 9 2 9 .ins).2.2 "foo" 9 [] [] 9 rfl
      (by decide) (by decide) (by decide)).1,
   ((c4_row_count_exceeded_iff 10 9 2 9 .ins).2.2 "foo" 9 [] [] 9 rfl
      (by decide) (by decide) (by decide)).2⟩

/-- The write-path loop of `ValidateRunSQL`, specified: with every
statement individually valid (referencing the non-empty tables `ts`) and
a non-empty current target table `t0`, the loop fails with
`MultiTableReference{t0, t}` at the first `t` disagreeing with `t0`, and
otherwise emits one `writeStmt` per statement, each deparsed and carrying
`t0`. -/
theorem runSQLWriteLoop_spec (sysPfx : String) (rest : List Node)
    (ts : List String)
    (hrest : List.Forall₂ (fun s t => validateWriteQuery sysPfx s = .ok t)
      rest ts)
    (t0 : String) (hne0 : t0 ≠ "")
    (hne : ∀ t ∈ ts, t ≠ "") (acc : List WriteStmtV) :
    runSQLWriteLoop sysPfx rest t0 acc =
      match ts.find? (fun t => t ≠ t0) with
      | some tBad => .error (.multiTableReference t0 tBad)
      | none => .ok (acc.reverse ++ rest.map (fun s => ⟨deparse s, t0⟩)) := by
  revert hne
  induction hrest generalizing acc with
  | nil =>
    intro hne
    simp [runSQLWriteLoop]
  | cons hst htail ih =>
    rename_i s t ss ts'
    intro hne
    simp only [runSQLWriteLoop, hst, Bind.bind, Except.bind]
    rw [if_neg hne0]
    by_cases hdiff : t = t0
    · subst hdiff
      rw [if_neg (by simp)]
      rw [ih (⟨deparse s, t⟩ :: acc) (fun u hu => hne u (List.mem_cons_of_mem _ hu))]
      cases hfind : ts'.find? (fun u => decide (u ≠ t)) with
      | some tBad =>
        simp only [ne_eq, decide_not] at hfind
        simp [List.find?_cons, hfind]
      | none =>
        simp only [ne_eq, decide_not] at hfind
        simp [List.find?_cons, hfind]
    · rw [if_pos (fun hEq => hdiff hEq.symm)]
      simp [List.find?_cons, hdiff]

/-- C5: a multi-statement write input whose statements each pass
per-statement validation (each referencing a non-empty table name, as any
parsed relation has): when every statement references the table of the
first one, `ValidateRunSQL` succeeds with one deparsed `writeStmt` per
input statement, each carrying that table; when some later statement
disagrees, it fails with `MultiTableReference` whose `Ref1` is the first
statement's table and `Ref2` the first disagreeing table. -/
theorem c5_multi_statement_write (sysPfx : String) (s0 : Node)
    (rest : List Node) (t0 : String) (ts : List String)
    (h0 : validateWriteQuery sysPfx s0 = .ok t0)
    (hrest : List.Forall₂ (fun s t => validateWriteQuery sysPfx s = .ok t)
      rest ts)
    (hne0 : t0 ≠ "") (hne : ∀ t ∈ ts, t ≠ "") :
    validateRunSQL sysPfx (s0 :: rest) =
      match ts.find? (fun t => t ≠ t0) with
      | some tBad => .error (.multiTableReference t0 tBad)
      | none =>
        .ok (.writeQuery ((s0 :: rest).map (fun s => ⟨deparse s, t0⟩))) := by
  have hunfold : validateRunSQL sysPfx (s0 :: rest) =
      Except.bind (runSQLWriteLoop sysPfx (s0 :: rest) "" [])
        (fun ws => .ok (.writeQuery ws)) := by
    cases s0
    case selectStmt tl fc w v lc =>
      exact absurd h0 (by simp [validateWriteQuery,
        checkTopLevelUpdateInsertDelete, Bind.bind, Except.bind])
    all_goals rfl
  have hstep : runSQLWriteLoop sysPfx (s0 :: rest) "" [] =
      runSQLWriteLoop sysPfx rest t0 [⟨deparse s0, t0⟩] := by
    simp [runSQLWriteLoop, h0, Bind.bind, Except.bind]
  rw [hunfold, hstep, runSQLWriteLoop_spec sysPfx rest ts hrest t0 hne0 hne]
  cases ts.find? (fun t => t ≠ t0) with
  | some tBad => rfl
  | none => simp [Except.bind]

/-- C5 witness: the spec's concrete scenarios — two statements on `foo`
are accepted as two `writeStmt`s on `foo`; `update foo` followed by
`insert into bar` fails with `MultiTableReference{foo, bar}`. -/
theorem c5_multi_statement_write_witness :
    validateRunSQL "system_"
      [.updateStmt "foo" [.resTarget "a" (some (.aConst "1"))] [] none [],
       .insertStmt "foo"
         (some (.selectStmt [] [] none [.listNode [.aConst "1"]] [])) []] =
      .ok (.writeQuery
        [⟨"update foo set a = 1", "foo"⟩,
         ⟨"insert into foo values (1)", "foo"⟩]) ∧
    validateRunSQL "system_"
      [.updateStmt "foo" [.resTarget "a" (some (.aConst "1"))] [] none [],
       .insertStmt "bar"
         (some (.selectStmt [] [] none [.listNode [.aConst "1"]] [])) []] =
      .error (.multiTableReference "foo" "bar") :=
  ⟨(c5_multi_statement_write "system_"
      (.updateStmt "foo" [.resTarget "a" (some (.aConst "1"))] [] none [])
      [.insertStmt "foo"
        (some (.selectStmt [] [] none [.listNode [.aConst "1"]] [])) []]
      "foo" ["foo"] rfl (.cons rfl .nil) (by decide) (by decide)).trans rfl,
   (c5_multi_statement_write "system_"
      (.updateStmt "foo" [.resTarget "a" (some (.aConst "1"))] [] none [])
      [.insertStmt "bar"
        (some (.selectStmt [] [] none [.listNode [.aConst "1"]] [])) []]
      "foo" ["bar"] rfl (.cons rfl .nil) (by decide) (by decide)).trans rfl⟩

end Tableland
